import Mathlib

/-!
Shallow embedding of the yais image-scraper core (yais.py): the prefix
registry built by the decorator calls, the per-site extraction strategies,
the resolver entry point, and the twitter guest-token cache protocol.
Network responses and page contents are modelled as explicit oracle inputs;
Python exceptions are modelled with an error type in Except results.
-/

namespace Yais

/-- Boolean test that the first list is an initial segment of the second,
mirroring Python str.startswith at character level. -/
def listStarts : List Char → List Char → Bool
  | [], _ => true
  | _ :: _, [] => false
  | a :: as, b :: bs => a == b && listStarts as bs

/-- Python url.startswith(p) over the character sequences of two strings. -/
def strStarts (pre s : String) : Bool :=
  listStarts pre.data s.data

/-- Helper for os.path.basename: keep the characters after the last slash. -/
def lastComponent : List Char → List Char → List Char
  | [], cur => cur.reverse
  | c :: cs, cur => if c == '/' then lastComponent cs [] else lastComponent cs (c :: cur)

/-- Embedding of os.path.basename on POSIX: the substring after the last slash. -/
def os_path_basename (s : String) : String :=
  ⟨lastComponent s.data []⟩

/-- Hexadecimal digit test used by percent-decoding. -/
def isHexCh (c : Char) : Bool :=
  c.isDigit || ('a' ≤ c && c ≤ 'f') || ('A' ≤ c && c ≤ 'F')

/-- Numeric value of a hexadecimal digit. -/
def hexVal (c : Char) : Nat :=
  if c.isDigit then c.toNat - 48
  else if 'a' ≤ c && c ≤ 'f' then c.toNat - 87
  else c.toNat - 55

/-- Percent-decoding pass of urllib.parse.unquote, at code-point level: a
percent sign followed by two hex digits becomes the decoded character, any
other character (including a percent sign not followed by two hex digits)
is kept as is. -/
def unquoteAux : List Char → List Char
  | [] => []
  | '%' :: a :: b :: rest =>
    if isHexCh a && isHexCh b then Char.ofNat (16 * hexVal a + hexVal b) :: unquoteAux rest
    else '%' :: unquoteAux (a :: b :: rest)
  | c :: rest => c :: unquoteAux rest

/-- Embedding of urllib.parse.unquote restricted to single-byte escapes. -/
def unquote (s : String) : String :=
  ⟨unquoteAux s.data⟩

/-- Characters allowed in a URL scheme, as in urllib.parse. -/
def isSchemeCh (c : Char) : Bool :=
  c.isAlphanum || c == '+' || c == '-' || c == '.'

/-- Remove a leading well-formed scheme (such as https:) from a URL character
sequence, as urllib.parse.urlsplit does. -/
def stripScheme (l : List Char) : List Char :=
  let pre := l.takeWhile (fun c => c != ':')
  if pre.length < l.length && !pre.isEmpty && pre.all isSchemeCh && (pre.headD 'a').isAlpha
  then l.drop (pre.length + 1) else l

/-- Remove a leading //netloc component, as urllib.parse.urlsplit does. -/
def dropNetloc : List Char → List Char
  | '/' :: '/' :: rest => rest.dropWhile (fun c => c != '/' && c != '?' && c != '#')
  | l => l

/-- Embedding of urlparse(url).path: strip the fragment, the scheme and the
network location, then keep everything before the query. -/
def urlparsePath (s : String) : String :=
  ⟨(dropNetloc (stripScheme (s.data.takeWhile (fun c => c != '#')))).takeWhile (fun c => c != '?')⟩

/-- The Image dataclass of yais.py. -/
structure Image where
  url : String
  filename : String
  origin : String
deriving DecidableEq

/-- Python exceptions that the embedded code can raise. -/
inductive PyErr where
  | valueError (msg : String)
  | typeError
  | keyError
  | indexError
  | requestError
  | exception (msg : String)
deriving DecidableEq

/-- Observable effects of the twitter guest-token protocol, in order of
occurrence: acquiring a fresh token, attempting the timeline API with a
token, and persisting a token to the cache file. -/
inductive TwEvent where
  | acquireFresh (token : String)
  | apiCall (token : String) (ok : Bool)
  | saveCache (token : String)
deriving DecidableEq

/-- The tail of get_image_data_from_twitter after the cached-token attempt
(lines 131-136 of yais.py): acquire a fresh guest token, call the API with
it, and on success persist the token when a cache directory is configured. -/
def twitterAfterCache (cacheDir : Bool) (api : String → Except PyErr (List Image))
    (fresh : String) (evs : List TwEvent) : List TwEvent × Except PyErr (List Image) :=
  match api fresh with
  | Except.error e =>
    (evs ++ [TwEvent.acquireFresh fresh, TwEvent.apiCall fresh false], Except.error e)
  | Except.ok a =>
    if cacheDir then
      (evs ++ [TwEvent.acquireFresh fresh, TwEvent.apiCall fresh true, TwEvent.saveCache fresh],
        Except.ok a)
    else
      (evs ++ [TwEvent.acquireFresh fresh, TwEvent.apiCall fresh true], Except.ok a)

/-- The guest-token protocol of get_image_data_from_twitter (lines 123-136):
when a cache directory is configured and a non-empty cached token is read,
attempt the API with it and return on success; on any failure fall through
to a single fresh acquisition and retry. The cached token value, the fresh
token value and the API outcome per token are oracle inputs. -/
def twitterRun (cacheDir : Bool) (cached : Option String)
    (api : String → Except PyErr (List Image)) (fresh : String) :
    List TwEvent × Except PyErr (List Image) :=
  if cacheDir then
    match cached with
    | some tok =>
      if tok == "" then twitterAfterCache cacheDir api fresh []
      else
        match api tok with
        | Except.ok a => ([TwEvent.apiCall tok true], Except.ok a)
        | Except.error _ => twitterAfterCache cacheDir api fresh [TwEvent.apiCall tok false]
    | none => twitterAfterCache cacheDir api fresh []
  else twitterAfterCache cacheDir api fresh []

/-- Match of the regex status\/(\d+) at the head of the character list:
the literal characters status/ followed by at least one digit, capturing
the maximal digit run. -/
def statusDigitsAt (l : List Char) : Option String :=
  if listStarts ("status/").data l then
    match (l.drop 7).takeWhile Char.isDigit with
    | [] => none
    | d :: ds => some ⟨d :: ds⟩
  else none

/-- Leftmost match of tweet_id_re (status\/(\d+)) in a URL, as re.search. -/
def findTweetId : List Char → Option String
  | [] => none
  | c :: rest =>
    match statusDigitsAt (c :: rest) with
    | some ds => some ds
    | none => findTweetId rest

/-- Embedding of get_image_data_from_twitter (lines 92-136): extract the
tweet id or fail, then run the guest-token protocol. The API oracle yields
the media_url_https values of the tweet, from which one Image per media is
built exactly as in the list comprehension of lines 108-121. -/
def get_image_data_from_twitter (url : String) (cacheDir : Bool) (cached : Option String)
    (api : String → Except PyErr (List String)) (fresh : String) :
    List TwEvent × Except PyErr (List Image) :=
  match findTweetId url.data with
  | none => ([], Except.error (PyErr.valueError "Can\x27t find tweet id"))
  | some _ =>
    twitterRun cacheDir cached
      (fun tok =>
        Except.map
          (fun medias =>
            medias.map (fun m =>
              { url := m ++ ":orig",
                filename := os_path_basename (urlparsePath m),
                origin := url }))
          (api tok))
      fresh

/-- Leftmost match of pixiv_id_re (\d{7,}): the first position where at
least seven consecutive digits start, capturing the maximal digit run. -/
def findPixivId : List Char → Option String
  | [] => none
  | c :: rest =>
    if 7 ≤ ((c :: rest).takeWhile Char.isDigit).length
    then some ⟨(c :: rest).takeWhile Char.isDigit⟩
    else findPixivId rest

/-- Embedding of get_image_data_from_pixiv (lines 142-152): take the first
run of seven or more digits in the URL (an IndexError when absent), then one
Image per page of the metadata body, whose original URLs are an oracle. -/
def get_image_data_from_pixiv (url : String) (pages : Except PyErr (List String)) :
    Except PyErr (List Image) :=
  match findPixivId url.data with
  | none => Except.error PyErr.indexError
  | some _ =>
    Except.map
      (fun body =>
        body.map (fun original =>
          { url := original,
            filename := os_path_basename original,
            origin := url }))
      pages

/-- Observable inputs of a moebooru post page: the result of
soup.find for the highres-show anchor (absent, or present with an optional
href attribute), and the result of the Post.register regex search (absent,
or a parsed object with an optional file_url field). -/
structure MoebooruPage where
  highresAnchor : Option (Option String)
  postRegister : Option (Option String)
deriving DecidableEq

/-- Parse paths attempted by the moebooru strategy, in execution order. -/
inductive MoeStep where
  | primaryLookup
  | fallbackLookup
deriving DecidableEq

/-- Embedding of get_image_data_from_moebooru (lines 167-178): subscripting
the result of soup.find raises TypeError when the anchor is absent (caught,
falling back to the Post.register payload) and KeyError when the anchor has
no href attribute (not caught). The fallback raises the descriptive
exception when the regex finds no match, and KeyError when the parsed
object has no file_url field. -/
def get_image_data_from_moebooru (url : String) (page : MoebooruPage) :
    List MoeStep × Except PyErr Image :=
  match page.highresAnchor with
  | some (some href) =>
    ([MoeStep.primaryLookup],
      Except.ok { url := href, filename := unquote (os_path_basename href), origin := url })
  | some none => ([MoeStep.primaryLookup], Except.error PyErr.keyError)
  | none =>
    match page.postRegister with
    | none =>
      ([MoeStep.primaryLookup, MoeStep.fallbackLookup],
        Except.error (PyErr.exception ("Can\x27t find img_url from " ++ url)))
    | some none =>
      ([MoeStep.primaryLookup, MoeStep.fallbackLookup], Except.error PyErr.keyError)
    | some (some fileUrl) =>
      ([MoeStep.primaryLookup, MoeStep.fallbackLookup],
        Except.ok { url := fileUrl, filename := unquote (os_path_basename fileUrl), origin := url })

/-- Embedding of get_image_data_from_zerochan (lines 181-186): subscripting
the preview-anchor lookup raises TypeError when the anchor is absent and
KeyError when it has no href attribute; neither is caught. -/
def get_image_data_from_zerochan (url : String) (previewAnchor : Option (Option String)) :
    Except PyErr Image :=
  match previewAnchor with
  | none => Except.error PyErr.typeError
  | some none => Except.error PyErr.keyError
  | some (some href) =>
    Except.ok { url := href, filename := unquote (os_path_basename href), origin := url }

/-- Tags of the four strategy functions registered in yais.py. -/
inductive Strategy where
  | twitter
  | pixiv
  | moebooru
  | zerochan
deriving DecidableEq

/-- Insertion into the __MAPPING dict: an existing key keeps its position
and gets the new value, a new key is appended. -/
def dictInsert (m : List (String × Strategy)) (k : String) (v : Strategy) :
    List (String × Strategy) :=
  if m.any (fun e => e.1 == k) then m.map (fun e => if e.1 == k then (e.1, v) else e)
  else m ++ [(k, v)]

/-- The support_prefix decorator body: insert every element of the iterable
of prefixes into the mapping, bound to the decorated strategy. -/
def registerPrefixes (ps : List String) (v : Strategy) (m : List (String × Strategy)) :
    List (String × Strategy) :=
  ps.foldl (fun acc p => dictInsert acc p v) m

/-- Python iteration over a string yields its characters as one-character
strings; this is what support_prefix receives for the zerochan registration,
which passes a bare string instead of a tuple. -/
def strIter (s : String) : List String :=
  s.data.map (fun c => String.singleton c)

/-- The __MAPPING dict after the four decorator registrations run in source
order: twitter (line 92), pixiv (line 142), moebooru (lines 158-166), and
zerochan (line 181, a bare string, hence iterated character by character). -/
def MAPPING : List (String × Strategy) :=
  registerPrefixes (strIter "https://www.zerochan.net/") Strategy.zerochan
    (registerPrefixes
      ["https://konachan.net/post/show/", "http://konachan.net/post/show/",
        "https://konachan.com/post/show/", "http://konachan.com/post/show/",
        "https://yande.re/post/show/"] Strategy.moebooru
      (registerPrefixes ["https://www.pixiv.net", "https://pixiv.net"] Strategy.pixiv
        (registerPrefixes ["https://twitter.com/"] Strategy.twitter [])))

/-- The multi-character site URL patterns passed to support_prefix as
tuples, in registration order; the zerochan pattern is not among them
because it is passed as a bare string. -/
def sitePrefixes : List String :=
  ["https://twitter.com/", "https://www.pixiv.net", "https://pixiv.net",
    "https://konachan.net/post/show/", "http://konachan.net/post/show/",
    "https://konachan.com/post/show/", "http://konachan.com/post/show/",
    "https://yande.re/post/show/"]

/-- The distinct characters of the zerochan pattern in first-occurrence
order, as they end up as keys of the mapping. -/
def zerochanChars : List Char :=
  ['h', 't', 'p', 's', ':', '/', 'w', '.', 'z', 'e', 'r', 'o', 'c', 'a', 'n']

/-- The mapping entries produced by the tuple registrations. -/
def siteEntries : List (String × Strategy) :=
  [("https://twitter.com/", Strategy.twitter),
    ("https://www.pixiv.net", Strategy.pixiv),
    ("https://pixiv.net", Strategy.pixiv),
    ("https://konachan.net/post/show/", Strategy.moebooru),
    ("http://konachan.net/post/show/", Strategy.moebooru),
    ("https://konachan.com/post/show/", Strategy.moebooru),
    ("http://konachan.com/post/show/", Strategy.moebooru),
    ("https://yande.re/post/show/", Strategy.moebooru)]

/-- The one-character mapping entries produced by the zerochan registration. -/
def charEntries : List (String × Strategy) :=
  zerochanChars.map (fun c => (String.singleton c, Strategy.zerochan))

/-- The prefix lookup loop of get_image_data (lines 199-200): the first
entry of the mapping, in insertion order, whose key is a prefix of the URL. -/
def resolveStrategy (url : String) : Option Strategy :=
  (MAPPING.find? (fun e => strStarts e.1 url)).map Prod.snd

/-- The value returned by a strategy before normalization: moebooru and
zerochan return a single Image dataclass (not iterable), twitter returns a
list and pixiv a generator (both iterable). -/
inductive StratResult where
  | single (img : Image)
  | many (imgs : List Image)
deriving DecidableEq

/-- The isinstance(rv, collections.Iterable) normalization of lines
205-207: an iterable is returned as is, a bare Image is wrapped in a
one-element list. -/
def normalizeResult : StratResult → List Image
  | StratResult.single img => [img]
  | StratResult.many imgs => imgs

/-- Oracle inputs standing for the network and page contents consumed by
the four strategies during one resolution call. -/
structure Env where
  twitterCached : Option String
  twitterFresh : String
  twitterMedia : String → Except PyErr (List String)
  pixivPages : Except PyErr (List String)
  moePage : MoebooruPage
  zeroAnchor : Option (Option String)

/-- Invocation of the strategy selected by the registry, tagging the result
with its Python runtime shape. -/
def runStrategy (s : Strategy) (url : String) (cacheConfigured : Bool) (env : Env) :
    Except PyErr StratResult :=
  match s with
  | Strategy.twitter =>
    Except.map StratResult.many
      (get_image_data_from_twitter url cacheConfigured env.twitterCached
        env.twitterMedia env.twitterFresh).2
  | Strategy.pixiv =>
    Except.map StratResult.many (get_image_data_from_pixiv url env.pixivPages)
  | Strategy.moebooru =>
    Except.map StratResult.single (get_image_data_from_moebooru url env.moePage).2
  | Strategy.zerochan =>
    Except.map StratResult.single (get_image_data_from_zerochan url env.zeroAnchor)

/-- Embedding of get_image_data (lines 189-209): dispatch on the first
matching registered prefix, run the strategy and normalize its result, or
raise ValueError naming the URL when no prefix matches. -/
def get_image_data (url : String) (cacheConfigured : Bool) (env : Env) :
    Except PyErr (List Image) :=
  match resolveStrategy url with
  | some s => Except.map normalizeResult (runStrategy s url cacheConfigured env)
  | none => Except.error (PyErr.valueError ("Unsupported url: " ++ url))

/-- State of one path of the cache filesystem: the file is absent, present
but unreadable or undecodable (opening or reading raises), or present with
readable content. -/
inductive FileState where
  | absent
  | unreadable
  | content (s : String)
deriving DecidableEq

/-- The fixed cache file name _twitter_guest_token_filename. -/
def twitter_guest_token_filename : String := "guest_token"

/-- The path cache / _twitter_guest_token_filename. -/
def tokenFilePath (cache : String) : String :=
  cache ++ "/" ++ twitter_guest_token_filename

/-- Embedding of read_twitter_guest_token_from_cache (lines 79-84): return
the file content, or None when opening or reading raises anything. -/
def read_twitter_guest_token_from_cache (fs : String → FileState) (cache : String) :
    Option String :=
  match fs (tokenFilePath cache) with
  | FileState.content s => some s
  | FileState.absent => none
  | FileState.unreadable => none

/-- Embedding of save_twitter_guest_token (lines 87-89): overwrite the
cache file with the token. -/
def save_twitter_guest_token (fs : String → FileState) (cache : String) (token : String) :
    String → FileState :=
  fun p => if p = tokenFilePath cache then FileState.content token else fs p

/-- Interpretation of a protocol trace against the cache filesystem: each
saveCache event performs save_twitter_guest_token, other events do not
touch the filesystem. -/
def applyEvents (cache : String) (evs : List TwEvent) (fs : String → FileState) :
    String → FileState :=
  evs.foldl
    (fun fs ev =>
      match ev with
      | TwEvent.saveCache token => save_twitter_guest_token fs cache token
      | TwEvent.acquireFresh _ => fs
      | TwEvent.apiCall _ _ => fs)
    fs

/-- A concrete API oracle for witnesses: the token old is expired, any
other token succeeds with an empty media list. -/
def testApi : String → Except PyErr (List Image) :=
  fun tok => if tok == "old" then Except.error PyErr.requestError else Except.ok []

/-- A concrete environment for witnesses, whose moebooru page has a
highres-show anchor with an href. -/
def testEnv : Env where
  twitterCached := none
  twitterFresh := "fresh"
  twitterMedia := fun _ => Except.error PyErr.requestError
  pixivPages := Except.error PyErr.requestError
  moePage :=
    { highresAnchor := some (some "https://konachan.net/image/abc/Konachan.com%20-%20296375.jpg")
      postRegister := none }
  zeroAnchor := none

/-! Helper lemmas about the registry. -/

/-- The mapping evaluates to the eight tuple-registered site entries
followed by the fifteen distinct one-character zerochan entries. -/
theorem MAPPING_eq : MAPPING = siteEntries ++ charEntries := by decide

/-- Every key of a site entry is one of the tuple-registered patterns. -/
theorem siteEntries_keys : ∀ e ∈ siteEntries, e.1 ∈ sitePrefixes := by decide

/-- Every one-character entry is bound to the zerochan strategy. -/
theorem charEntries_zerochan : ∀ e ∈ charEntries, e.2 = Strategy.zerochan := by decide

/-- Every character of the zerochan pattern is among the distinct keys. -/
theorem zchars_mem : ∀ c ∈ ("https://www.zerochan.net/").data, c ∈ zerochanChars := by decide

/-- C1: for every URL that starts with none of the prefixes registered in
the mapping, get_image_data raises a ValueError naming the input URL, and
the registry lookup selects no strategy, so no strategy function runs: the
result is this error for every cache configuration and environment. -/
theorem c1_unsupported_url (url : String)
    (h : ∀ p ∈ MAPPING.map Prod.fst, strStarts p url = false) :
    resolveStrategy url = none ∧
      ∀ cc env, get_image_data url cc env =
        Except.error (PyErr.valueError ("Unsupported url: " ++ url)) := by
  have hf : MAPPING.find? (fun e => strStarts e.1 url) = none := by
    rw [List.find?_eq_none]
    intro e he
    have he1 := h e.1 (List.mem_map_of_mem Prod.fst he)
    simp [he1]
  refine ⟨?_, ?_⟩
  · simp [resolveStrategy, hf]
  · intro cc env
    simp [get_image_data, resolveStrategy, hf]

/-- C1 witness: the URL ftp://example.com matches no registered prefix and
is rejected with the error naming it. -/
theorem c1_unsupported_url_witness :
    resolveStrategy "ftp://example.com" = none ∧
      get_image_data "ftp://example.com" false testEnv =
        Except.error (PyErr.valueError ("Unsupported url: " ++ "ftp://example.com")) :=
  ⟨(c1_unsupported_url "ftp://example.com" (by decide)).1,
    (c1_unsupported_url "ftp://example.com" (by decide)).2 false testEnv⟩

/-- C2: each character of the zerochan pattern is registered as a
one-character prefix mapped to the zerochan strategy, and every URL whose
first character occurs in that pattern and which starts with none of the
tuple-registered site patterns dispatches to the zerochan handler instead
of raising the unsupported-URL error. -/
theorem c2_zerochan_char_registration :
    (∀ c ∈ ("https://www.zerochan.net/").data,
        (String.singleton c, Strategy.zerochan) ∈ MAPPING) ∧
    ∀ url : String,
      (∀ p ∈ sitePrefixes, strStarts p url = false) →
      (∃ c, url.data.head? = some c ∧ c ∈ ("https://www.zerochan.net/").data) →
      resolveStrategy url = some Strategy.zerochan ∧
        ∀ cc env, get_image_data url cc env =
          Except.map normalizeResult (runStrategy Strategy.zerochan url cc env) := by
  constructor
  · decide
  · intro url h1 h2
    obtain ⟨c, hhead, hc⟩ := h2
    have hcz : c ∈ zerochanChars := zchars_mem c hc
    obtain ⟨tail, htail⟩ : ∃ tail, url.data = c :: tail := by
      cases hd : url.data with
      | nil => rw [hd] at hhead; simp at hhead
      | cons a t =>
        rw [hd] at hhead
        simp at hhead
        exact ⟨t, by rw [hhead]⟩
    have hpred : strStarts (String.singleton c) url = true := by
      simp [strStarts, String.singleton, htail, listStarts]
    have hsite : siteEntries.find? (fun e => strStarts e.1 url) = none := by
      rw [List.find?_eq_none]
      intro e he
      have h1e := h1 e.1 (siteEntries_keys e he)
      simp [h1e]
    have hmem : (String.singleton c, Strategy.zerochan) ∈ charEntries :=
      List.mem_map_of_mem _ hcz
    have hsome : (charEntries.find? (fun e => strStarts e.1 url)).isSome := by
      rw [List.find?_isSome]
      exact ⟨(String.singleton c, Strategy.zerochan), hmem, hpred⟩
    obtain ⟨e, he⟩ := Option.isSome_iff_exists.mp hsome
    have hez : e.2 = Strategy.zerochan :=
      charEntries_zerochan e (List.mem_of_find?_eq_some he)
    have hres : resolveStrategy url = some Strategy.zerochan := by
      simp only [resolveStrategy, MAPPING_eq, List.find?_append, hsite, Option.none_or,
        he, Option.map_some']
      rw [hez]
    refine ⟨hres, ?_⟩
    intro cc env
    simp [get_image_data, hres]

/-- C2 witness: https://example.com matches no site pattern, begins with
the character h, and dispatches to the zerochan handler. -/
theorem c2_zerochan_char_registration_witness :
    resolveStrategy "https://example.com" = some Strategy.zerochan :=
  (c2_zerochan_char_registration.2 "https://example.com" (by decide)
    ⟨'h', by decide, by decide⟩).1

/-- C4: when a cache directory is configured, a non-empty cached token was
read, and the API call with it throws, the failure is swallowed, exactly
one fresh token is acquired and the API call is retried with it once: on
success the result is returned and the fresh token is persisted, leaving
the cache file containing it; on failure the error propagates with no
further retry and no persistence. The full event traces are stated. -/
theorem c4_retry_once_then_persist (api : String → Except PyErr (List Image))
    (fresh t : String) (e : PyErr) (hne : t ≠ "") (hfail : api t = Except.error e) :
    (∀ a, api fresh = Except.ok a →
      twitterRun true (some t) api fresh =
        ([TwEvent.apiCall t false, TwEvent.acquireFresh fresh, TwEvent.apiCall fresh true,
          TwEvent.saveCache fresh], Except.ok a) ∧
      ∀ (fs : String → FileState) cache,
        applyEvents cache (twitterRun true (some t) api fresh).1 fs (tokenFilePath cache) =
          FileState.content fresh) ∧
    (∀ e2, api fresh = Except.error e2 →
      twitterRun true (some t) api fresh =
        ([TwEvent.apiCall t false, TwEvent.acquireFresh fresh, TwEvent.apiCall fresh false],
          Except.error e2)) := by
  have hbeq : (t == "") = false := beq_eq_false_iff_ne.mpr hne
  constructor
  · intro a ha
    have hrun : twitterRun true (some t) api fresh =
        ([TwEvent.apiCall t false, TwEvent.acquireFresh fresh, TwEvent.apiCall fresh true,
          TwEvent.saveCache fresh], Except.ok a) := by
      simp [twitterRun, hbeq, hfail, twitterAfterCache, ha]
    refine ⟨hrun, ?_⟩
    intro fs cache
    rw [hrun]
    simp [applyEvents, save_twitter_guest_token]
  · intro e2 ha
    simp [twitterRun, hbeq, hfail, twitterAfterCache, ha]

/-- C4 witness: with the expired token old cached and a working fresh token
new, the protocol performs the failed cached attempt, one acquisition, one
successful retry, and persists new into the cache file. -/
theorem c4_retry_once_then_persist_witness :
    twitterRun true (some "old") testApi "new" =
      ([TwEvent.apiCall "old" false, TwEvent.acquireFresh "new", TwEvent.apiCall "new" true,
        TwEvent.saveCache "new"], Except.ok []) ∧
      applyEvents "cachedir" (twitterRun true (some "old") testApi "new").1
        (fun _ => FileState.absent) (tokenFilePath "cachedir") = FileState.content "new" := by
  have h := (c4_retry_once_then_persist testApi "new" "old" PyErr.requestError (by decide)
    (by rfl)).1 [] (by rfl)
  exact ⟨h.1, h.2 (fun _ => FileState.absent) "cachedir"⟩

/-- C9: whenever the API call with the fresh token fails, no trace of any
run contains a save event, so the cache filesystem is left unchanged;
persistence happens only after the retried call succeeds. -/
theorem c9_no_save_on_fresh_failure (cc : Bool) (cached : Option String)
    (api : String → Except PyErr (List Image)) (fresh : String) (e2 : PyErr)
    (h : api fresh = Except.error e2) :
    (∀ token, TwEvent.saveCache token ∉ (twitterRun cc cached api fresh).1) ∧
    ∀ cache (fs : String → FileState),
      applyEvents cache (twitterRun cc cached api fresh).1 fs = fs := by
  have hA : ∀ evs, twitterAfterCache cc api fresh evs =
      (evs ++ [TwEvent.acquireFresh fresh, TwEvent.apiCall fresh false], Except.error e2) := by
    intro evs
    simp [twitterAfterCache, h]
  refine ⟨?_, ?_⟩
  · intro token
    cases cc with
    | false => simp [twitterRun, hA]
    | true =>
      cases cached with
      | none => simp [twitterRun, hA]
      | some tok =>
        by_cases htok : (tok == "") = true
        · simp [twitterRun, htok, hA]
        · cases hapi : api tok with
          | ok a => simp [twitterRun, htok, hapi]
          | error eb => simp [twitterRun, htok, hapi, hA]
  · intro cache fs
    cases cc with
    | false => simp [twitterRun, hA, applyEvents]
    | true =>
      cases cached with
      | none => simp [twitterRun, hA, applyEvents]
      | some tok =>
        by_cases htok : (tok == "") = true
        · simp [twitterRun, htok, hA, applyEvents]
        · cases hapi : api tok with
          | ok a => simp [twitterRun, htok, hapi, applyEvents]
          | error eb => simp [twitterRun, htok, hapi, hA, applyEvents]

/-- C9 witness: when both the cached token and the fresh token fail, no
save event occurs and the cache filesystem is unchanged. -/
theorem c9_no_save_on_fresh_failure_witness :
    TwEvent.saveCache "old" ∉ (twitterRun true (some "old") testApi "old").1 ∧
      applyEvents "cachedir" (twitterRun true (some "old") testApi "old").1
        (fun _ => FileState.absent) = (fun _ => FileState.absent) :=
  ⟨(c9_no_save_on_fresh_failure true (some "old") testApi "old" PyErr.requestError
      (by rfl)).1 "old",
    (c9_no_save_on_fresh_failure true (some "old") testApi "old" PyErr.requestError
      (by rfl)).2 "cachedir" (fun _ => FileState.absent)⟩

/-- C10: a cached token file that exists but is empty behaves exactly like
a missing cache file: the run is identical to the run with no cached value,
and its first event is the fresh acquisition, so the empty cached value is
never attempted against the API. -/
theorem c10_empty_cached_token (api : String → Except PyErr (List Image)) (fresh : String) :
    twitterRun true (some "") api fresh = twitterRun true none api fresh ∧
      (twitterRun true (some "") api fresh).1.head? = some (TwEvent.acquireFresh fresh) := by
  constructor
  · rfl
  · cases h : api fresh with
    | ok a => simp [twitterRun, twitterAfterCache, h]
    | error e => simp [twitterRun, twitterAfterCache, h]

/-- C5: saving a guest token and reading it back from the same cache path
yields the same string, and reading from a path whose token file is absent
or unreadable returns the no-token result (None) rather than raising. -/
theorem c5_cache_round_trip :
    (∀ (fs : String → FileState) cache token,
        read_twitter_guest_token_from_cache (save_twitter_guest_token fs cache token) cache =
          some token) ∧
    ∀ (fs : String → FileState) cache,
      (fs (tokenFilePath cache) = FileState.absent ∨
        fs (tokenFilePath cache) = FileState.unreadable) →
      read_twitter_guest_token_from_cache fs cache = none := by
  constructor
  · intro fs cache token
    simp [read_twitter_guest_token_from_cache, save_twitter_guest_token]
  · intro fs cache h
    rcases h with h | h <;> simp [read_twitter_guest_token_from_cache, h]

/-- C5 witness: a concrete round trip on an initially empty filesystem, and
a read from the empty filesystem returning None. -/
theorem c5_cache_round_trip_witness :
    read_twitter_guest_token_from_cache
        (save_twitter_guest_token (fun _ => FileState.absent) "cachedir" "tok123") "cachedir" =
      some "tok123" ∧
      read_twitter_guest_token_from_cache (fun _ => FileState.absent) "cachedir" = none :=
  ⟨c5_cache_round_trip.1 (fun _ => FileState.absent) "cachedir" "tok123",
    c5_cache_round_trip.2 (fun _ => FileState.absent) "cachedir" (Or.inl rfl)⟩

/-- C6 counterexample: the claim that the fallback path is attempted
whenever the primary path yields no link is false: on a page whose
highres-show anchor exists but has no href attribute, the strategy raises
KeyError (uncaught, since only TypeError is handled) and never attempts
the Post.register fallback, even though it is available. -/
theorem c6_fallback_claim_counterexample :
    ¬ ∀ (url : String) (page : MoebooruPage),
        (page.highresAnchor = none ∨ page.highresAnchor = some none) →
        MoeStep.fallbackLookup ∈ (get_image_data_from_moebooru url page).1 := by
  intro h
  have hc := h "https://yande.re/post/show/1"
    { highresAnchor := some none,
      postRegister := some (some "https://files.yande.re/image/a.jpg") }
    (Or.inr rfl)
  simp [get_image_data_from_moebooru] at hc

/-- C6 amended: the primary (anchor) path always runs first; the fallback
(Post.register) path is attempted exactly when the anchor is absent (the
TypeError path); the descriptive error naming the source URL is raised
exactly when the anchor is absent and the embedded object is also absent;
and an anchor present without a link target raises a key-lookup error
without attempting the fallback. -/
theorem c6_fallback_chain_amended (url : String) (page : MoebooruPage) :
    ((get_image_data_from_moebooru url page).1.head? = some MoeStep.primaryLookup) ∧
    (page.highresAnchor = none ↔
      MoeStep.fallbackLookup ∈ (get_image_data_from_moebooru url page).1) ∧
    ((get_image_data_from_moebooru url page).2 =
        Except.error (PyErr.exception ("Can\x27t find img_url from " ++ url)) ↔
      page.highresAnchor = none ∧ page.postRegister = none) ∧
    (page.highresAnchor = some none →
      (get_image_data_from_moebooru url page).2 = Except.error PyErr.keyError ∧
        MoeStep.fallbackLookup ∉ (get_image_data_from_moebooru url page).1) := by
  obtain ⟨ha, hp⟩ := page
  cases ha with
  | none =>
    cases hp with
    | none => simp [get_image_data_from_moebooru]
    | some fu =>
      cases fu with
      | none => simp [get_image_data_from_moebooru]
      | some f => simp [get_image_data_from_moebooru]
  | some oh =>
    cases oh with
    | none => simp [get_image_data_from_moebooru]
    | some href => simp [get_image_data_from_moebooru]

/-- C6 amended witness: on a page with a highres-show anchor lacking href,
the strategy raises KeyError and does not attempt the fallback. -/
theorem c6_fallback_chain_amended_witness :
    (get_image_data_from_moebooru "https://yande.re/post/show/2"
        { highresAnchor := some none, postRegister := none }).2 =
      Except.error PyErr.keyError ∧
      MoeStep.fallbackLookup ∉
        (get_image_data_from_moebooru "https://yande.re/post/show/2"
          { highresAnchor := some none, postRegister := none }).1 :=
  (c6_fallback_chain_amended "https://yande.re/post/show/2"
    { highresAnchor := some none, postRegister := none }).2.2.2 rfl

/-! Helper lemmas about successful strategy results. -/

/-- A successful result of the post-cache tail comes from the fresh-token
API call. -/
theorem twitterAfterCache_ok (cc : Bool) (api : String → Except PyErr (List Image))
    (fresh : String) (evs : List TwEvent) (a : List Image)
    (h : (twitterAfterCache cc api fresh evs).2 = Except.ok a) :
    api fresh = Except.ok a := by
  cases hf : api fresh with
  | ok b => cases cc <;> simp [twitterAfterCache, hf] at h <;> rw [h]
  | error e => simp [twitterAfterCache, hf] at h

/-- A successful guest-token run returns the result of the API call at
some token. -/
theorem twitterRun_ok {cc : Bool} {cached : Option String}
    {api : String → Except PyErr (List Image)} {fresh : String} {a : List Image}
    (h : (twitterRun cc cached api fresh).2 = Except.ok a) :
    ∃ tok, api tok = Except.ok a := by
  cases cc with
  | false =>
    refine ⟨fresh, twitterAfterCache_ok false api fresh [] a ?_⟩
    simpa [twitterRun] using h
  | true =>
    cases cached with
    | none =>
      refine ⟨fresh, twitterAfterCache_ok true api fresh [] a ?_⟩
      simpa [twitterRun] using h
    | some tok =>
      by_cases ht : (tok == "") = true
      · refine ⟨fresh, twitterAfterCache_ok true api fresh [] a ?_⟩
        simpa [twitterRun, ht] using h
      · cases hapi : api tok with
        | ok b =>
          refine ⟨tok, ?_⟩
          rw [hapi]
          have hb : b = a := by simpa [twitterRun, ht, hapi] using h
          rw [hb]
        | error e =>
          refine ⟨fresh, twitterAfterCache_ok true api fresh [TwEvent.apiCall tok false] a ?_⟩
          simpa [twitterRun, ht, hapi] using h

/-- Every successful twitter strategy result is the media list of some API
response, each record built by the list comprehension of lines 108-121. -/
theorem twitter_ok_shape {url : String} {cc : Bool} {cached : Option String}
    {api : String → Except PyErr (List String)} {fresh : String} {l : List Image}
    (h : (get_image_data_from_twitter url cc cached api fresh).2 = Except.ok l) :
    ∃ ms : List String, l = ms.map (fun m =>
      ({ url := m ++ ":orig", filename := os_path_basename (urlparsePath m),
         origin := url } : Image)) := by
  unfold get_image_data_from_twitter at h
  cases hid : findTweetId url.data with
  | none => rw [hid] at h; simp at h
  | some tid =>
    rw [hid] at h
    obtain ⟨tok, htok⟩ := twitterRun_ok h
    cases hapi : api tok with
    | ok ms =>
      rw [hapi] at htok
      simp [Except.map] at htok
      exact ⟨ms, htok.symm⟩
    | error e =>
      rw [hapi] at htok
      simp [Except.map] at htok

/-- Every successful pixiv strategy result is the page list of the
metadata body, each record built as in lines 147-152. -/
theorem pixiv_ok_shape {url : String} {pages : Except PyErr (List String)} {l : List Image}
    (h : get_image_data_from_pixiv url pages = Except.ok l) :
    ∃ body : List String, l = body.map (fun o =>
      ({ url := o, filename := os_path_basename o, origin := url } : Image)) := by
  unfold get_image_data_from_pixiv at h
  cases hid : findPixivId url.data with
  | none => rw [hid] at h; simp at h
  | some pid =>
    rw [hid] at h
    cases hp : pages with
    | ok body =>
      rw [hp] at h
      simp [Except.map] at h
      exact ⟨body, h.symm⟩
    | error e =>
      rw [hp] at h
      simp [Except.map] at h

/-- Every successful moebooru strategy result is built from some resolved
image URL as in line 178. -/
theorem moebooru_ok_shape {url : String} {page : MoebooruPage} {img : Image}
    (h : (get_image_data_from_moebooru url page).2 = Except.ok img) :
    ∃ iu, img =
      { url := iu, filename := unquote (os_path_basename iu), origin := url } := by
  rcases page with ⟨ha, hp⟩
  cases ha with
  | some oh =>
    cases oh with
    | some href =>
      refine ⟨href, ?_⟩
      simp [get_image_data_from_moebooru] at h
      exact h.symm
    | none => simp [get_image_data_from_moebooru] at h
  | none =>
    cases hp with
    | none => simp [get_image_data_from_moebooru] at h
    | some fu =>
      cases fu with
      | none => simp [get_image_data_from_moebooru] at h
      | some f =>
        refine ⟨f, ?_⟩
        simp [get_image_data_from_moebooru] at h
        exact h.symm

/-- Every successful zerochan strategy result is built from the preview
href as in line 186. -/
theorem zerochan_ok_shape {url : String} {anchor : Option (Option String)} {img : Image}
    (h : get_image_data_from_zerochan url anchor = Except.ok img) :
    ∃ iu, img =
      { url := iu, filename := unquote (os_path_basename iu), origin := url } := by
  cases anchor with
  | none => simp [get_image_data_from_zerochan] at h
  | some oh =>
    cases oh with
    | none => simp [get_image_data_from_zerochan] at h
    | some href =>
      refine ⟨href, ?_⟩
      simp [get_image_data_from_zerochan] at h
      exact h.symm

/-- When the registry lookup selects a strategy, get_image_data is that
strategy's normalized result. -/
theorem get_image_data_dispatch {url : String} {s : Strategy}
    (hr : resolveStrategy url = some s) (cc : Bool) (env : Env) :
    get_image_data url cc env =
      Except.map normalizeResult (runStrategy s url cc env) := by
  unfold get_image_data
  rw [hr]

/-- Every image of a successful strategy run carries the input URL as its
origin field. -/
theorem runStrategy_origin {s : Strategy} {url : String} {cc : Bool} {env : Env}
    {r : StratResult} (h : runStrategy s url cc env = Except.ok r) :
    ∀ img ∈ normalizeResult r, img.origin = url := by
  cases s with
  | twitter =>
    simp only [runStrategy] at h
    cases hx : (get_image_data_from_twitter url cc env.twitterCached env.twitterMedia
        env.twitterFresh).2 with
    | error e => rw [hx] at h; simp [Except.map] at h
    | ok l =>
      rw [hx] at h
      simp [Except.map] at h
      obtain ⟨ms, rfl⟩ := twitter_ok_shape hx
      intro img hm
      rw [← h] at hm
      simp [normalizeResult] at hm
      obtain ⟨m, hm', rfl⟩ := hm
      rfl
  | pixiv =>
    simp only [runStrategy] at h
    cases hx : get_image_data_from_pixiv url env.pixivPages with
    | error e => rw [hx] at h; simp [Except.map] at h
    | ok l =>
      rw [hx] at h
      simp [Except.map] at h
      obtain ⟨body, rfl⟩ := pixiv_ok_shape hx
      intro img hm
      rw [← h] at hm
      simp [normalizeResult] at hm
      obtain ⟨o, ho, rfl⟩ := hm
      rfl
  | moebooru =>
    simp only [runStrategy] at h
    cases hx : (get_image_data_from_moebooru url env.moePage).2 with
    | error e => rw [hx] at h; simp [Except.map] at h
    | ok img =>
      rw [hx] at h
      simp [Except.map] at h
      obtain ⟨iu, rfl⟩ := moebooru_ok_shape hx
      intro i hi
      rw [← h] at hi
      simp [normalizeResult] at hi
      rw [hi]
  | zerochan =>
    simp only [runStrategy] at h
    cases hx : get_image_data_from_zerochan url env.zeroAnchor with
    | error e => rw [hx] at h; simp [Except.map] at h
    | ok img =>
      rw [hx] at h
      simp [Except.map] at h
      obtain ⟨iu, rfl⟩ := zerochan_ok_shape hx
      intro i hi
      rw [← h] at hi
      simp [normalizeResult] at hi
      rw [hi]

/-- C7: every Image record of a successful get_image_data call has its
origin field equal to the exact URL string that was passed in, hence
origin is identical across all records of one resolution. -/
theorem c7_origin_preserved (url : String) (cc : Bool) (env : Env) (imgs : List Image)
    (h : get_image_data url cc env = Except.ok imgs) :
    ∀ img ∈ imgs, img.origin = url := by
  cases hr : resolveStrategy url with
  | none => rw [get_image_data, hr] at h; simp at h
  | some s =>
    rw [get_image_data_dispatch hr cc env] at h
    cases hs : runStrategy s url cc env with
    | error e => rw [hs] at h; simp [Except.map] at h
    | ok r =>
      rw [hs] at h
      simp [Except.map] at h
      intro img hm
      rw [← h] at hm
      exact runStrategy_origin hs img hm

/-- C7 witness: a concrete moebooru resolution whose single record carries
the input URL as origin. -/
theorem c7_origin_preserved_witness :
    get_image_data "https://konachan.net/post/show/296375" true testEnv =
      Except.ok [{ url := "https://konachan.net/image/abc/Konachan.com%20-%20296375.jpg",
                   filename := "Konachan.com - 296375.jpg",
                   origin := "https://konachan.net/post/show/296375" }] ∧
      ({ url := "https://konachan.net/image/abc/Konachan.com%20-%20296375.jpg",
         filename := "Konachan.com - 296375.jpg",
         origin := "https://konachan.net/post/show/296375" } : Image).origin =
        "https://konachan.net/post/show/296375" :=
  ⟨rfl,
    c7_origin_preserved "https://konachan.net/post/show/296375" true testEnv
      [{ url := "https://konachan.net/image/abc/Konachan.com%20-%20296375.jpg",
         filename := "Konachan.com - 296375.jpg",
         origin := "https://konachan.net/post/show/296375" }] rfl
      { url := "https://konachan.net/image/abc/Konachan.com%20-%20296375.jpg",
        filename := "Konachan.com - 296375.jpg",
        origin := "https://konachan.net/post/show/296375" }
      (List.mem_singleton.mpr rfl)⟩

/-- C8: every successful get_image_data call went through a registered
strategy, and its returned list is the strategy result normalized: a bare
Image record is wrapped into a one-element list, an iterable result is
returned as is. -/
theorem c8_normalized_sequence (url : String) (cc : Bool) (env : Env) (imgs : List Image)
    (h : get_image_data url cc env = Except.ok imgs) :
    ∃ s, resolveStrategy url = some s ∧
      ((∃ i, runStrategy s url cc env = Except.ok (StratResult.single i) ∧ imgs = [i]) ∨
        (∃ l, runStrategy s url cc env = Except.ok (StratResult.many l) ∧ imgs = l)) := by
  cases hr : resolveStrategy url with
  | none => rw [get_image_data, hr] at h; simp at h
  | some s =>
    rw [get_image_data_dispatch hr cc env] at h
    refine ⟨s, rfl, ?_⟩
    cases hs : runStrategy s url cc env with
    | error e => rw [hs] at h; simp [Except.map] at h
    | ok r =>
      rw [hs] at h
      simp [Except.map] at h
      cases r with
      | single i => exact Or.inl ⟨i, rfl, h.symm⟩
      | many l => exact Or.inr ⟨l, rfl, h.symm⟩

/-- C8 witness: the concrete moebooru resolution returns the strategy's
bare Image wrapped into a one-element list. -/
theorem c8_normalized_sequence_witness :
    ∃ s, resolveStrategy "https://konachan.net/post/show/296375" = some s ∧
      ((∃ i, runStrategy s "https://konachan.net/post/show/296375" true testEnv =
          Except.ok (StratResult.single i) ∧
          [({ url := "https://konachan.net/image/abc/Konachan.com%20-%20296375.jpg",
              filename := "Konachan.com - 296375.jpg",
              origin := "https://konachan.net/post/show/296375" } : Image)] = [i]) ∨
        (∃ l, runStrategy s "https://konachan.net/post/show/296375" true testEnv =
          Except.ok (StratResult.many l) ∧
          [({ url := "https://konachan.net/image/abc/Konachan.com%20-%20296375.jpg",
              filename := "Konachan.com - 296375.jpg",
              origin := "https://konachan.net/post/show/296375" } : Image)] = l)) :=
  c8_normalized_sequence "https://konachan.net/post/show/296375" true testEnv
    [{ url := "https://konachan.net/image/abc/Konachan.com%20-%20296375.jpg",
       filename := "Konachan.com - 296375.jpg",
       origin := "https://konachan.net/post/show/296375" }] rfl

/-- C3 counterexample: the twitter strategy does not percent-decode: for a
media URL containing a percent escape, the produced filename keeps the
escape, while the percent-decoded path basename of the resolved URL
(before the quality suffix) differs. -/
theorem c3_filename_decoding_counterexample :
    (get_image_data_from_twitter "https://twitter.com/x/status/1" false none
        (fun _ => Except.ok ["https://pbs.twimg.com/media/a%20b.jpg"]) "tok").2 =
      Except.ok [{ url := "https://pbs.twimg.com/media/a%20b.jpg" ++ ":orig",
                   filename := "a%20b.jpg",
                   origin := "https://twitter.com/x/status/1" }] ∧
      "a%20b.jpg" ≠
        unquote (os_path_basename (urlparsePath "https://pbs.twimg.com/media/a%20b.jpg")) := by
  constructor
  · rfl
  · decide

/-- C3 amended: every strategy derives the filename from the basename of
the resolved URL, but only the moebooru and zerochan strategies
percent-decode it; the twitter strategy takes the raw basename of the
media URL's parsed path (before the quality suffix), and the pixiv
strategy the raw basename of the page URL. -/
theorem c3_filename_derivation_amended :
    (∀ url cc cached api fresh l,
        (get_image_data_from_twitter url cc cached api fresh).2 = Except.ok l →
        ∀ img ∈ l, ∃ m, img.url = m ++ ":orig" ∧
          img.filename = os_path_basename (urlparsePath m)) ∧
    (∀ url pages l, get_image_data_from_pixiv url pages = Except.ok l →
        ∀ img ∈ l, img.filename = os_path_basename img.url) ∧
    (∀ url page img, (get_image_data_from_moebooru url page).2 = Except.ok img →
        img.filename = unquote (os_path_basename img.url)) ∧
    (∀ url anchor img, get_image_data_from_zerochan url anchor = Except.ok img →
        img.filename = unquote (os_path_basename img.url)) := by
  refine ⟨?_, ?_, ?_, ?_⟩
  · intro url cc cached api fresh l h img hm
    obtain ⟨ms, rfl⟩ := twitter_ok_shape h
    obtain ⟨m, hm', rfl⟩ := List.mem_map.mp hm
    exact ⟨m, rfl, rfl⟩
  · intro url pages l h img hm
    obtain ⟨body, rfl⟩ := pixiv_ok_shape h
    obtain ⟨o, ho, rfl⟩ := List.mem_map.mp hm
    rfl
  · intro url page img h
    obtain ⟨iu, rfl⟩ := moebooru_ok_shape h
    rfl
  · intro url anchor img h
    obtain ⟨iu, rfl⟩ := zerochan_ok_shape h
    rfl

/-- C3 amended witness: a concrete zerochan record whose filename is the
percent-decoded basename of its resolved URL. -/
theorem c3_filename_derivation_amended_witness :
    get_image_data_from_zerochan "https://www.zerochan.net/1936674"
        (some (some "https://static.zerochan.net/Hibike%21.Euphonium.full.1936674.jpg")) =
      Except.ok { url := "https://static.zerochan.net/Hibike%21.Euphonium.full.1936674.jpg",
                  filename := "Hibike!.Euphonium.full.1936674.jpg",
                  origin := "https://www.zerochan.net/1936674" } ∧
      ({ url := "https://static.zerochan.net/Hibike%21.Euphonium.full.1936674.jpg",
         filename := "Hibike!.Euphonium.full.1936674.jpg",
         origin := "https://www.zerochan.net/1936674" } : Image).filename =
        unquote (os_path_basename
          ({ url := "https://static.zerochan.net/Hibike%21.Euphonium.full.1936674.jpg",
             filename := "Hibike!.Euphonium.full.1936674.jpg",
             origin := "https://www.zerochan.net/1936674" } : Image).url) :=
  ⟨rfl,
    c3_filename_derivation_amended.2.2.2 "https://www.zerochan.net/1936674"
      (some (some "https://static.zerochan.net/Hibike%21.Euphonium.full.1936674.jpg"))
      { url := "https://static.zerochan.net/Hibike%21.Euphonium.full.1936674.jpg",
        filename := "Hibike!.Euphonium.full.1936674.jpg",
        origin := "https://www.zerochan.net/1936674" } rfl⟩

end Yais
